import Mathlib

/-!
Shallow embedding of the verbleiber check-in kiosk controller (Rust) in Lean 4.

Source files embedded: src/model.rs, src/events.rs, src/buttons.rs,
src/tagreader.rs, src/keycodenames.rs, src/audio.rs, src/client.rs,
src/config.rs.

The remote API client (api.rs), the random source (random.rs) and the current
revision of the session coordinator with admin-tag support are not present in
the source tree; where needed they are modelled from the specification, with
doc comments starting "Modelled from the spec:". Hash maps and sets are
modelled as functions to `Option` and as lists, side effects (API calls,
sound playback) as explicit effect traces.
-/

namespace Verbleiber

/-! ## Data model (src/model.rs) -/

/-- model.rs: `struct Tag { value: String }`, equality by value. -/
structure Tag where
  value : String
deriving DecidableEq, Repr

/-- model.rs: `type UserId = String`. -/
abbrev UserId := String

/-- model.rs: `type PartyId = String`. -/
abbrev PartyId := String

/-- model.rs: `enum UserMode { SingleUser(UserId), MultiUser }`. -/
inductive UserMode
  | SingleUser (userId : UserId)
  | MultiUser
deriving DecidableEq, Repr

/-- model.rs: `enum CurrentUser { None, Admin, User(UserId) }`. -/
inductive CurrentUser
  | None
  | Admin
  | User (userId : UserId)
deriving DecidableEq, Repr

/-! ## Buttons (src/buttons.rs, enum at the end of the file) -/

/-- buttons.rs: `enum Button { Button1, ..., Button8 }`. -/
inductive Button
  | Button1 | Button2 | Button3 | Button4
  | Button5 | Button6 | Button7 | Button8
deriving DecidableEq, Repr

/-! ## Events (src/events.rs) -/

/-- events.rs: `enum Event { TagRead { tag }, ButtonPressed { button },
ShutdownRequested }`. -/
inductive Event
  | TagRead (tag : Tag)
  | ButtonPressed (button : Button)
  | ShutdownRequested
deriving DecidableEq, Repr

/-! ## Sounds (src/audio.rs) -/

/-- audio.rs: `enum Sound`. -/
inductive Sound
  | AdminModeEntered
  | AdminModeLeft
  | SignOnSuccessful
  | SignOnFailed
  | SignOffSuccessful
  | SignOffFailed
  | UserTagCustomGreeting (name : String)
  | UserTagUnknown
  | WhereaboutsStatusUpdated
  | WhereaboutsStatusUpdatedCustom (name : String)
  | CommunicationFailed
deriving DecidableEq, Repr

/-- audio.rs: `Sound::get_name`. -/
def Sound.get_name : Sound → String
  | .AdminModeEntered => "admin_mode_entered"
  | .AdminModeLeft => "admin_mode_left"
  | .SignOnSuccessful => "sign_on_successful"
  | .SignOnFailed => "sign_on_failed"
  | .SignOffSuccessful => "sign_off_successful"
  | .SignOffFailed => "sign_off_failed"
  | .UserTagCustomGreeting name => name
  | .UserTagUnknown => "user_tag_unknown"
  | .WhereaboutsStatusUpdated => "whereabouts_status_updated"
  | .WhereaboutsStatusUpdatedCustom name => name
  | .CommunicationFailed => "communication_failed"

/-! ## The API client as an oracle

api.rs is not in the source tree; only its callers in client.rs are.
Remote calls are modelled as oracle fields returning `Except Unit`
(errors are opaque at this layer, per the spec), and each call the
coordinator makes is additionally recorded in an effect trace. -/

/-- Modelled from the spec: `TagDetails` carries a resolved user id, optional
display name, and optional greeting-sound name (api.rs is not under src/;
field shape follows the uses in client.rs: `details.identifier`,
`details.user.id`, `details.user.screen_name`, `details.sound_name`). -/
structure TagDetails where
  identifier : String
  user_id : UserId
  screen_name : Option String
  sound_name : Option String
deriving DecidableEq, Repr

/-- Modelled from the spec: the API Client contract `sign_on() -> Result<()>`,
`sign_off() -> Result<()>`, `get_tag_details(tag) -> Result<Option<TagDetails>>`,
`update_status(user_id, whereabouts_name) -> Result<()>` (api.rs is not under
src/). Each call's outcome is an oracle field; calls are synchronous. -/
structure ApiClient where
  sign_on : Except Unit Unit
  sign_off : Except Unit Unit
  get_tag_details : Tag → Except Unit (Option TagDetails)
  update_status : UserId → String → Except Unit Unit

/-! ## Configuration (src/config.rs) -/

/-- config.rs: `PartyConfig`; the two `HashMap`s are modelled as functions
to `Option`. -/
structure PartyConfig where
  party_id : PartyId
  buttons_to_whereabouts : Button → Option String
  whereabouts_sounds : String → Option (List String)

/-! ## Observable effects of the session coordinator -/

/-- One observable side effect of the coordinator: a remote API call or a
played sound (client.rs `play_sound` plays `sound.get_name()`; the trace
records the `Sound` value it was given). -/
inductive Effect
  | ApiSignOn
  | ApiSignOff
  | ApiGetTagDetails (tag : Tag)
  | ApiUpdateStatus (userId : UserId) (whereaboutsName : String)
  | Play (sound : Sound)
deriving DecidableEq, Repr

/-- The sounds played in an effect trace, in order. -/
def playsOf (effects : List Effect) : List Sound :=
  effects.filterMap fun e =>
    match e with
    | .Play s => some s
    | _ => none

/-- The API calls in an effect trace, in order (everything except plays). -/
def apiCallsOf (effects : List Effect) : List Effect :=
  effects.filter fun e =>
    match e with
    | .Play _ => false
    | _ => true

/-! ## Session coordinator (src/client.rs) -/

/-- client.rs: `enum EventHandlingResult`. -/
inductive EventHandlingResult
  | KeepCurrentUser
  | SetCurrentUser (u : CurrentUser)
  | ResetCurrentUser
  | Abort
deriving DecidableEq, Repr

/-- client.rs: `struct Client` — the fields the event-handling logic reads.
The audio player is pure trace output here; `choose_random_element` stands for
the `Random` collaborator (random.rs is not under src/; the spec gives the
contract `choose_one_of(list) -> element`, an injectable random source). -/
structure Client where
  user_mode : UserMode
  api_client : ApiClient
  party_config : PartyConfig
  choose_random_element : List String → String

/-- client.rs: `Client::handle_button_press_with_identified_user`.
Returns the effect trace (the Rust function returns `Ok(())`; its observable
behavior is the `update_status` call and the played sound). -/
def Client.handle_button_press_with_identified_user (c : Client)
    (user_id : UserId) (button : Button) : List Effect :=
  match c.party_config.buttons_to_whereabouts button with
  | some whereabouts_name =>
    match c.api_client.update_status user_id whereabouts_name with
    | .ok _ =>
      let sound :=
        match c.party_config.whereabouts_sounds whereabouts_name with
        | some sound_names =>
          Sound.WhereaboutsStatusUpdatedCustom (c.choose_random_element sound_names)
        | none => Sound.WhereaboutsStatusUpdated
      [Effect.ApiUpdateStatus user_id whereabouts_name, Effect.Play sound]
    | .error _ =>
      [Effect.ApiUpdateStatus user_id whereabouts_name,
       Effect.Play Sound.CommunicationFailed]
  | none => []

/-- client.rs: `Client::handle_tag_read`. -/
def Client.handle_tag_read (c : Client) (tag : Tag) :
    EventHandlingResult × List Effect :=
  match c.api_client.get_tag_details tag with
  | .ok (some details) =>
    let greeting :=
      match details.sound_name with
      | some name => [Effect.Play (Sound.UserTagCustomGreeting name)]
      | none => []
    (EventHandlingResult.SetCurrentUser (CurrentUser.User details.user_id),
     Effect.ApiGetTagDetails tag :: greeting)
  | .ok none =>
    (EventHandlingResult.ResetCurrentUser,
     [Effect.ApiGetTagDetails tag, Effect.Play Sound.UserTagUnknown])
  | .error _ =>
    (EventHandlingResult.ResetCurrentUser,
     [Effect.ApiGetTagDetails tag, Effect.Play Sound.CommunicationFailed])

/-- client.rs: `Client::sign_on` (plays the success/failure sound, never
propagates the API error). -/
def Client.sign_on (c : Client) : List Effect :=
  match c.api_client.sign_on with
  | .ok _ => [Effect.ApiSignOn, Effect.Play Sound.SignOnSuccessful]
  | .error _ => [Effect.ApiSignOn, Effect.Play Sound.SignOnFailed]

/-- client.rs: `Client::sign_off`. -/
def Client.sign_off (c : Client) : List Effect :=
  match c.api_client.sign_off with
  | .ok _ => [Effect.ApiSignOff, Effect.Play Sound.SignOffSuccessful]
  | .error _ => [Effect.ApiSignOff, Effect.Play Sound.SignOffFailed]

/-- client.rs: `Client::shutdown` — logs and calls `sign_off`. -/
def Client.shutdown (c : Client) : List Effect :=
  c.sign_off

/-- client.rs: `Client::handle_single_user_event`. A tag read is logged as
unexpected, no API call is made. -/
def Client.handle_single_user_event (c : Client) (event : Event)
    (single_user_id : UserId) : EventHandlingResult × List Effect :=
  match event with
  | .TagRead _ => (EventHandlingResult.ResetCurrentUser, [])
  | .ButtonPressed button =>
    (EventHandlingResult.ResetCurrentUser,
     c.handle_button_press_with_identified_user single_user_id button)
  | .ShutdownRequested => (EventHandlingResult.Abort, c.shutdown)

/-- client.rs: `Client::handle_multi_user_event`. The source's `match` on
`current_user` in the `ButtonPressed` arm has cases for `User` and `None`
only; it has no `Admin` arm. Lean requires totality, so the `Admin` case is
given a placeholder value; it is never exercised: no transition of this file's
coordinator produces `Admin` (see the reachability theorems below), and no
theorem's proof evaluates this case. -/
def Client.handle_multi_user_event (c : Client) (event : Event)
    (current_user : CurrentUser) : EventHandlingResult × List Effect :=
  match event with
  | .TagRead tag => c.handle_tag_read tag
  | .ButtonPressed button =>
    match current_user with
    | .User user_id =>
      (EventHandlingResult.ResetCurrentUser,
       c.handle_button_press_with_identified_user user_id button)
    | .None => (EventHandlingResult.ResetCurrentUser, [])
    | .Admin => (EventHandlingResult.KeepCurrentUser, [])
  | .ShutdownRequested => (EventHandlingResult.Abort, c.shutdown)

/-- client.rs: `handle_events`, the `default_current_user` computation at the
top of the loop. -/
def default_current_user : UserMode → CurrentUser
  | .SingleUser user_id => CurrentUser.User user_id
  | .MultiUser => CurrentUser.None

/-- client.rs: the per-event dispatch inside `handle_events`'s loop body —
the `match self.user_mode` choosing the handler. -/
def Client.handle_event_step (c : Client) (event : Event)
    (current_user : CurrentUser) : EventHandlingResult × List Effect :=
  match c.user_mode with
  | .SingleUser user_id => c.handle_single_user_event event user_id
  | .MultiUser => c.handle_multi_user_event event current_user

/-- client.rs: `Client::handle_events`, generalized over the current user
state at loop entry. Consumes the channel's events in order; each event is
dispatched by mode, the result updates `current_user`, and `Abort` breaks the
loop (remaining events are not processed). Returns the final `current_user`
and the concatenated effect trace. -/
def Client.handle_events_from (c : Client) (current_user : CurrentUser) :
    List Event → CurrentUser × List Effect
  | [] => (current_user, [])
  | event :: rest =>
    let step := c.handle_event_step event current_user
    match step.1 with
    | .KeepCurrentUser =>
      let tail := c.handle_events_from current_user rest
      (tail.1, step.2 ++ tail.2)
    | .SetCurrentUser new_current_user =>
      let tail := c.handle_events_from new_current_user rest
      (tail.1, step.2 ++ tail.2)
    | .ResetCurrentUser =>
      let tail := c.handle_events_from (default_current_user c.user_mode) rest
      (tail.1, step.2 ++ tail.2)
    | .Abort => (current_user, step.2)

/-- client.rs: `Client::handle_events` — the loop starts from the mode's
default current user. -/
def Client.handle_events (c : Client) (events : List Event) :
    CurrentUser × List Effect :=
  c.handle_events_from (default_current_user c.user_mode) events

/-- The `current_user` update the loop body of `handle_events` applies to a
handling result (the `Abort` case breaks instead; its value here is unused). -/
def nextUser (c : Client) (current_user : CurrentUser) :
    EventHandlingResult → CurrentUser
  | .KeepCurrentUser => current_user
  | .SetCurrentUser new_current_user => new_current_user
  | .ResetCurrentUser => default_current_user c.user_mode
  | .Abort => current_user

/-! ## The coordinator revision with admin-tag support

main.rs passes `admin_tags` (from `Config::get_admin_tags`) as the third
argument of `Client::new`, model.rs declares `CurrentUser::Admin`, and
audio.rs declares the `AdminModeEntered`/`AdminModeLeft` sounds — but the
client.rs present in the source tree is an earlier revision: its
`Client::new` takes no admin tags, its multi-user `ButtonPressed` match has
no `Admin` arm, and `handle_tag_read` never consults an admin set. The
revision of client.rs that main.rs calls is therefore missing from the tree;
its admin behavior is modelled here from the spec. -/

/-- Modelled from the spec: the missing client.rs revision's client state —
the client of this tree plus the configured `AdminTagSet` ("configured set of
Tag values treated as administrative credentials"), modelled as a list. -/
structure AdminClient where
  base : Client
  admin_tags : List Tag

/-- Modelled from the spec: the missing client.rs revision's tag-read
handling — "if tag ∈ AdminTagSet → enter admin state, play admin-entered
sound; else call API `get_tag_details(tag)`"; the non-admin branch is the
`handle_tag_read` of the client.rs in the tree. -/
def AdminClient.handle_tag_read (a : AdminClient) (tag : Tag) :
    EventHandlingResult × List Effect :=
  if tag ∈ a.admin_tags then
    (EventHandlingResult.SetCurrentUser CurrentUser.Admin,
     [Effect.Play Sound.AdminModeEntered])
  else
    a.base.handle_tag_read tag

/-- Modelled from the spec: the missing client.rs revision's multi-user event
handling — its state-machine rows: `TagRead` goes through the admin-aware
tag-read handling; `ButtonPressed` with `CurrentUser = Admin` leaves admin
mode, plays the admin-left sound and resets; the other rows are those of the
client.rs in the tree. -/
def AdminClient.handle_multi_user_event (a : AdminClient) (event : Event)
    (current_user : CurrentUser) : EventHandlingResult × List Effect :=
  match event with
  | .TagRead tag => a.handle_tag_read tag
  | .ButtonPressed button =>
    match current_user with
    | .User user_id =>
      (EventHandlingResult.ResetCurrentUser,
       a.base.handle_button_press_with_identified_user user_id button)
    | .Admin =>
      (EventHandlingResult.ResetCurrentUser, [Effect.Play Sound.AdminModeLeft])
    | .None => (EventHandlingResult.ResetCurrentUser, [])
  | .ShutdownRequested => (EventHandlingResult.Abort, a.base.shutdown)

/-! ## Raw input events and the device listeners

evdev raw events carry an event type, a key code and a value; for key events
the value is 0 on release, 1 on press, 2 on autorepeat.
`event.destructure()` yields `EventSummary::Key(_, key_code, value)` exactly
when the event type is `EventType::KEY` (numeric value 1). -/

/-- evdev `InputEvent`: event type, key code, value. -/
structure InputEvent where
  eventType : Nat
  code : Nat
  value : Int
deriving DecidableEq, Repr

/-- evdev `EventType::KEY`. -/
def EV_KEY : Nat := 1

/-- Linux input key codes used by the sources. -/
def KEY_1 : Nat := 2
def KEY_2 : Nat := 3
def KEY_3 : Nat := 4
def KEY_4 : Nat := 5
def KEY_5 : Nat := 6
def KEY_6 : Nat := 7
def KEY_7 : Nat := 8
def KEY_8 : Nat := 9
def KEY_9 : Nat := 10
def KEY_0 : Nat := 11
def KEY_ENTER : Nat := 28

/-! ### Button listener (src/buttons.rs) -/

/-- buttons.rs: `KeyCodeToButtonMapping::find_button_for_key_code` — the
`HashMap<KeyCode, Button>` is modelled as a function to `Option`. -/
def find_button_for_key_code (key_codes_to_buttons : Nat → Option Button)
    (key_code : Nat) : Option Button :=
  key_codes_to_buttons key_code

/-- buttons.rs: `ButtonHandler::handle_key_code` — emits `ButtonPressed` when
the key code is mapped to a button, nothing otherwise. -/
def ButtonHandler.handle_key_code (key_codes_to_buttons : Nat → Option Button)
    (key_code : Nat) : List Event :=
  match find_button_for_key_code key_codes_to_buttons key_code with
  | some button => [Event.ButtonPressed button]
  | none => []

/-- buttons.rs: one iteration of `handle_key_presses` composed with
`ButtonHandler::handle_key_code`: the callback runs exactly when
`event.destructure()` matches `EventSummary::Key(_, key_code, 1)`, i.e. when
the event type is KEY and the value is 1. -/
def buttonListenerEmit (key_codes_to_buttons : Nat → Option Button)
    (event : InputEvent) : List Event :=
  if event.eventType = EV_KEY ∧ event.value = 1 then
    ButtonHandler.handle_key_code key_codes_to_buttons event.code
  else []

/-! ### Tag listener (src/tagreader.rs)

`TagReader` holds `chars_read: String`; the buffer is modelled as its list of
characters (`String` in Lean is a structure over `List Char`; list form keeps
the accumulation structural). -/

/-- tagreader.rs: `TagReader::is_key_released` — event type is KEY and the
value is 0. -/
def is_key_released (event : InputEvent) : Bool :=
  event.eventType = EV_KEY && event.value = 0

/-- tagreader.rs: `TagReader::get_char` — digit key codes map to their
characters, everything else to `None`. -/
def TagReader.get_char (key_code : Nat) : Option Char :=
  if key_code = KEY_1 then some '1'
  else if key_code = KEY_2 then some '2'
  else if key_code = KEY_3 then some '3'
  else if key_code = KEY_4 then some '4'
  else if key_code = KEY_5 then some '5'
  else if key_code = KEY_6 then some '6'
  else if key_code = KEY_7 then some '7'
  else if key_code = KEY_8 then some '8'
  else if key_code = KEY_9 then some '9'
  else if key_code = KEY_0 then some '0'
  else none

/-- tagreader.rs: `TagReader::handle_event`. Non-release events are dropped;
on release of Enter the buffer is cleared and a `Tag` with the buffered
characters is returned; on release of a digit key the character is appended;
all other releases are ignored. Returns the new buffer and the optional tag
(the source mutates `self.chars_read` and returns `Option<Tag>`). -/
def TagReader.handle_event (chars_read : List Char) (event : InputEvent) :
    List Char × Option Tag :=
  if ¬ is_key_released event then (chars_read, none)
  else if event.eventType = EV_KEY ∧ event.value = 0 then
    if event.code = KEY_ENTER then
      ([], some (Tag.mk (String.mk chars_read)))
    else
      match TagReader.get_char event.code with
      | some ch => (chars_read ++ [ch], none)
      | none => (chars_read, none)
  else (chars_read, none)

/-- tagreader.rs: `TagReadHandler::run`'s loop body over a list of raw
events, threading the reader's buffer and collecting the emitted tags. -/
def TagReader.run (chars_read : List Char) :
    List InputEvent → List Char × List Tag
  | [] => (chars_read, [])
  | event :: rest =>
    let step := TagReader.handle_event chars_read event
    let tail := TagReader.run step.1 rest
    (tail.1, step.2.toList ++ tail.2)

/-- The digit characters a list of raw events contributes to the tag buffer,
in order. -/
def tagChars (events : List InputEvent) : List Char :=
  events.filterMap fun e => TagReader.get_char e.code

/-! ### Key-code translator (src/keycodenames.rs)

`KeyCodeNameMapping::new` inserts a fixed table into a `BiMap<KeyName,
KeyCode>`; the table is embedded as the list of `(name, code)` pairs in
insertion order, with the numeric values of the evdev `KeyCode` constants
(from linux input-event-codes.h, as the source comment points to). Since no
name and no code repeats (proved below), `BiMap` lookup in either direction
coincides with first-match search in this list. -/

/-- keycodenames.rs: `type KeyName = String`. -/
abbrev KeyName := String

/-- keycodenames.rs: the pairs inserted by `KeyCodeNameMapping::new`. -/
def keyCodeNameTable : List (KeyName × Nat) :=
  [ ("left", 272), ("right", 273), ("middle", 274), ("side", 275),
    ("extra", 276), ("forward", 277), ("back", 278), ("task", 279),
    ("trigger", 288), ("thumb", 289), ("thumb2", 290), ("top", 291),
    ("top2", 292), ("pinkie", 293), ("base", 294), ("base2", 295),
    ("base3", 296), ("base4", 297), ("base5", 298), ("base6", 299),
    ("dead", 303),
    ("a", 304), ("b", 305), ("c", 306), ("x", 307), ("y", 308), ("z", 309),
    ("tl", 310), ("tr", 311), ("tl2", 312), ("tr2", 313),
    ("select", 314), ("start", 315), ("mode", 316),
    ("thumbl", 317), ("thumbr", 318),
    ("dpad_up", 544), ("dpad_down", 545), ("dpad_left", 546),
    ("dpad_right", 547),
    ("trigger_happy1", 704), ("trigger_happy2", 705), ("trigger_happy3", 706),
    ("trigger_happy4", 707), ("trigger_happy5", 708), ("trigger_happy6", 709),
    ("trigger_happy7", 710), ("trigger_happy8", 711) ]

/-- keycodenames.rs: `KeyCodeNameMapping::find_code_for_name` —
`names_to_codes.get_by_left(&name)`. -/
def find_code_for_name (name : KeyName) : Option Nat :=
  (keyCodeNameTable.find? fun p => p.1 = name).map Prod.snd

/-- Modelled from the spec: `name_for_code(code) -> Option<Name>` — the
keycodenames.rs in the tree defines only `find_code_for_name`, yet
buttons.rs's `identify_buttons` calls `find_name_for_code`; the revision
defining it is missing from the tree. Per the spec it is the reverse lookup
of the same bijective table (`names_to_codes.get_by_right`). -/
def find_name_for_code (code : Nat) : Option KeyName :=
  (keyCodeNameTable.find? fun p => p.2 = code).map Prod.fst

/-! ## Sample collaborators used to exercise the theorems on concrete inputs -/

/-- An API oracle whose calls all succeed and that knows no tags. -/
def okApi : ApiClient :=
  { sign_on := Except.ok ()
    sign_off := Except.ok ()
    get_tag_details := fun _ => Except.ok none
    update_status := fun _ _ => Except.ok () }

/-- An API oracle whose calls all fail. -/
def errApi : ApiClient :=
  { sign_on := Except.error ()
    sign_off := Except.error ()
    get_tag_details := fun _ => Except.error ()
    update_status := fun _ _ => Except.error () }

/-- A party configuration in the spirit of the spec's examples: `Button3`
maps to whereabouts `"lounge"`, whose sole configured sound is
`"going_to_lounge"`. -/
def sampleParty : PartyConfig :=
  { party_id := "party-1"
    buttons_to_whereabouts := fun b =>
      if b = Button.Button3 then some "lounge" else none
    whereabouts_sounds := fun n =>
      if n = "lounge" then some ["going_to_lounge"] else none }

/-- A multi-user client over the succeeding oracle. -/
def sampleClient : Client :=
  { user_mode := UserMode.MultiUser
    api_client := okApi
    party_config := sampleParty
    choose_random_element := fun l => l.headD "" }

/-- A multi-user client over the failing oracle. -/
def sampleErrClient : Client :=
  { user_mode := UserMode.MultiUser
    api_client := errApi
    party_config := sampleParty
    choose_random_element := fun l => l.headD "" }

/-! ## Theorems -/

/-- C10: if the Enter key is released while the tag reader's digit buffer is
empty, `TagReader::handle_event` still returns a tag — whose value is the
empty string — rather than suppressing it, and the buffer stays empty. -/
theorem enter_with_empty_buffer_emits_empty_tag :
    TagReader.handle_event [] (InputEvent.mk EV_KEY KEY_ENTER 0) =
      ([], some (Tag.mk "")) := by
  decide

/-- C8: the key-code translator's table is a bijection: every `(name, code)`
pair of the table is found by both lookups, and names or codes outside the
table yield `none` (`find_name_for_code` modelled from the spec, see its
definition). -/
theorem key_code_mapping_bijection :
    (∀ p ∈ keyCodeNameTable,
       find_code_for_name p.1 = some p.2 ∧ find_name_for_code p.2 = some p.1) ∧
    (∀ name : KeyName, name ∉ keyCodeNameTable.map Prod.fst →
       find_code_for_name name = none) ∧
    (∀ code : Nat, code ∉ keyCodeNameTable.map Prod.snd →
       find_name_for_code code = none) := by
  refine ⟨by decide, ?_, ?_⟩
  · intro name h
    have : keyCodeNameTable.find? (fun p => p.1 = name) = none := by
      rw [List.find?_eq_none]
      intro p hp
      simp only [decide_eq_true_eq]
      intro hpn
      exact h (List.mem_map.mpr ⟨p, hp, hpn⟩)
    simp [find_code_for_name, this]
  · intro code h
    have : keyCodeNameTable.find? (fun p => p.2 = code) = none := by
      rw [List.find?_eq_none]
      intro p hp
      simp only [decide_eq_true_eq]
      intro hpc
      exact h (List.mem_map.mpr ⟨p, hp, hpc⟩)
    simp [find_name_for_code, this]

/-- C8 witness: the bijection theorem evaluated at the pair `("left", 272)`,
at a name and at a code outside the table. -/
theorem key_code_mapping_bijection_witness :
    (find_code_for_name "left" = some 272 ∧ find_name_for_code 272 = some "left") ∧
    find_code_for_name "no_such_key" = none ∧
    find_name_for_code 999 = none :=
  ⟨key_code_mapping_bijection.1 ("left", 272) (by decide),
   key_code_mapping_bijection.2.1 "no_such_key" (by decide),
   key_code_mapping_bijection.2.2 999 (by decide)⟩

/-- C1: in multi-user mode, a `TagRead` of a configured admin tag makes the
coordinator enter the admin state (the handling result sets `CurrentUser` to
`Admin`), play the admin-entered sound and nothing else, and issue no
`get_tag_details` call (the admin-aware coordinator revision is modelled
from the spec, see `AdminClient`). -/
theorem admin_tag_read_enters_admin_and_skips_lookup
    (a : AdminClient) (tag : Tag) (current_user : CurrentUser)
    (h : tag ∈ a.admin_tags) :
    a.handle_multi_user_event (Event.TagRead tag) current_user =
      (EventHandlingResult.SetCurrentUser CurrentUser.Admin,
       [Effect.Play Sound.AdminModeEntered]) ∧
    ∀ t, Effect.ApiGetTagDetails t ∉
      (a.handle_multi_user_event (Event.TagRead tag) current_user).2 := by
  constructor
  · simp [AdminClient.handle_multi_user_event, AdminClient.handle_tag_read, h]
  · intro t
    simp [AdminClient.handle_multi_user_event, AdminClient.handle_tag_read, h]

/-- C1 witness: a concrete admin client whose admin tag set contains
`"0042"`; reading that tag enters admin mode. -/
theorem admin_tag_read_enters_admin_and_skips_lookup_witness :
    (AdminClient.mk sampleClient [Tag.mk "0042"]).handle_multi_user_event
        (Event.TagRead (Tag.mk "0042")) CurrentUser.None =
      (EventHandlingResult.SetCurrentUser CurrentUser.Admin,
       [Effect.Play Sound.AdminModeEntered]) :=
  (admin_tag_read_enters_admin_and_skips_lookup
    (AdminClient.mk sampleClient [Tag.mk "0042"]) (Tag.mk "0042")
    CurrentUser.None (by decide)).1

/-- C2 counterexample: the button listener does fire on a key-press
transition. For the raw event with event type KEY, code 304 and value 1 — a
key *press*, not a release — and a mapping that assigns code 304 to
`Button1`, `handle_key_presses` invokes the handler and a `ButtonPressed`
event is emitted, contradicting "a key-press event never causes a
ButtonPressed event to be emitted". -/
theorem button_listener_fires_on_key_press :
    (InputEvent.mk EV_KEY 304 1).value = 1 ∧
    buttonListenerEmit
        (fun code => if code = 304 then some Button.Button1 else none)
        (InputEvent.mk EV_KEY 304 1) =
      [Event.ButtonPressed Button.Button1] :=
  ⟨rfl, rfl⟩

/-- C2 amended: the two listeners each act on exactly one transition value,
but they differ. The tag listener acts only on key-release (value 0): any
raw event whose value is not 0 leaves the buffer unchanged and emits no
`TagRead`. The button listener acts only on key-press (value 1): any raw
event whose value is not 1 — in particular every key release — emits no
`ButtonPressed`. -/
theorem listeners_transition_filter
    (key_codes_to_buttons : Nat → Option Button) (event : InputEvent)
    (chars_read : List Char) :
    (event.value ≠ 1 → buttonListenerEmit key_codes_to_buttons event = []) ∧
    (event.value ≠ 0 → TagReader.handle_event chars_read event =
      (chars_read, none)) := by
  constructor
  · intro h
    rw [buttonListenerEmit, if_neg]
    rintro ⟨-, hv⟩
    exact h hv
  · intro h
    rw [TagReader.handle_event, if_pos]
    simp [is_key_released, h]

/-- C2 amended witness: a key release (value 0) of mapped code 304 emits no
button event, and a key press (value 1) of the digit-1 key leaves the tag
buffer untouched. -/
theorem listeners_transition_filter_witness :
    buttonListenerEmit
        (fun code => if code = 304 then some Button.Button1 else none)
        (InputEvent.mk EV_KEY 304 0) = [] ∧
    TagReader.handle_event ['7'] (InputEvent.mk EV_KEY KEY_1 1) =
      (['7'], none) :=
  ⟨(listeners_transition_filter _ (InputEvent.mk EV_KEY 304 0) []).1 (by decide),
   (listeners_transition_filter (fun _ => none) (InputEvent.mk EV_KEY KEY_1 1)
      ['7']).2 (by decide)⟩

/-- Helper: on a key release of any non-Enter key, `handle_event` appends the
key's digit character, if it has one, to the buffer and emits nothing. -/
theorem handle_event_release_non_enter (chars_read : List Char)
    (event : InputEvent) (h0 : is_key_released event = true)
    (hne : event.code ≠ KEY_ENTER) :
    TagReader.handle_event chars_read event =
      (chars_read ++ (TagReader.get_char event.code).toList, none) := by
  have ht : event.eventType = EV_KEY ∧ event.value = 0 := by
    simpa [is_key_released] using h0
  rw [TagReader.handle_event, if_neg (by simp [h0]), if_pos ht, if_neg hne]
  cases hc : TagReader.get_char event.code <;> simp

/-- Helper: the tag reader's loop over an appended event list runs the first
part, then the second from the resulting buffer, concatenating the tags. -/
theorem TagReader.run_append (chars_read : List Char)
    (xs ys : List InputEvent) :
    TagReader.run chars_read (xs ++ ys) =
      ((TagReader.run (TagReader.run chars_read xs).1 ys).1,
       (TagReader.run chars_read xs).2 ++
         (TagReader.run (TagReader.run chars_read xs).1 ys).2) := by
  induction xs generalizing chars_read with
  | nil => simp [TagReader.run]
  | cons e rest ih => simp [TagReader.run, ih]

/-- Helper: over key releases of non-Enter keys, the tag reader appends
exactly the digit characters, in order, and emits no tag. -/
theorem TagReader.run_no_enter (chars_read : List Char)
    (events : List InputEvent)
    (h : ∀ e ∈ events, is_key_released e = true ∧ e.code ≠ KEY_ENTER) :
    TagReader.run chars_read events = (chars_read ++ tagChars events, []) := by
  induction events generalizing chars_read with
  | nil => simp [TagReader.run, tagChars]
  | cons e rest ih =>
    obtain ⟨h0, hne⟩ := h e (List.mem_cons_self e rest)
    have hrest : ∀ x ∈ rest, is_key_released x = true ∧ x.code ≠ KEY_ENTER :=
      fun x hx => h x (List.mem_cons_of_mem e hx)
    rw [TagReader.run, handle_event_release_non_enter chars_read e h0 hne]
    simp only [ih _ hrest, tagChars, List.filterMap_cons]
    cases hc : TagReader.get_char e.code <;>
      simp [hc, tagChars, List.append_assoc]

/-- C5: feeding the tag listener key-release events: digit releases append
their characters to the buffer in order with no event emitted; a subsequent
Enter release emits exactly one `TagRead` whose tag value is the buffer
contents — the digit characters released since the last Enter, in order —
and clears the buffer; a non-digit, non-Enter release changes neither the
buffer nor the emitted events. -/
theorem tag_reader_digits_and_enter (chars_read : List Char)
    (events : List InputEvent)
    (h : ∀ e ∈ events, is_key_released e = true ∧ e.code ≠ KEY_ENTER) :
    TagReader.run chars_read events = (chars_read ++ tagChars events, []) ∧
    TagReader.run chars_read (events ++ [InputEvent.mk EV_KEY KEY_ENTER 0]) =
      ([], [Tag.mk (String.mk (chars_read ++ tagChars events))]) ∧
    (∀ e ch, is_key_released e = true → TagReader.get_char e.code = some ch →
       TagReader.handle_event chars_read e = (chars_read ++ [ch], none)) ∧
    (∀ e, is_key_released e = true → e.code ≠ KEY_ENTER →
       TagReader.get_char e.code = none →
       TagReader.handle_event chars_read e = (chars_read, none)) := by
  have hrun := TagReader.run_no_enter chars_read events h
  refine ⟨hrun, ?_, ?_, ?_⟩
  · rw [TagReader.run_append, hrun]
    simp [TagReader.run, TagReader.handle_event, is_key_released, EV_KEY]
  · intro e ch h0 hc
    have hne : e.code ≠ KEY_ENTER := by
      intro he
      rw [he] at hc
      simp [TagReader.get_char, KEY_ENTER, KEY_1, KEY_2, KEY_3, KEY_4, KEY_5,
            KEY_6, KEY_7, KEY_8, KEY_9, KEY_0] at hc
    rw [handle_event_release_non_enter chars_read e h0 hne, hc]
    rfl
  · intro e h0 hne hc
    rw [handle_event_release_non_enter chars_read e h0 hne, hc]
    simp

/-- C5 witness: releasing digit keys 4 and 2 then Enter, starting from an
empty buffer, buffers `"42"` and emits exactly the tag `"42"`. -/
theorem tag_reader_digits_and_enter_witness :
    TagReader.run [] [InputEvent.mk EV_KEY KEY_4 0, InputEvent.mk EV_KEY KEY_2 0] =
      (['4', '2'], []) ∧
    TagReader.run []
        ([InputEvent.mk EV_KEY KEY_4 0, InputEvent.mk EV_KEY KEY_2 0] ++
          [InputEvent.mk EV_KEY KEY_ENTER 0]) =
      ([], [Tag.mk "42"]) := by
  have h := tag_reader_digits_and_enter []
    [InputEvent.mk EV_KEY KEY_4 0, InputEvent.mk EV_KEY KEY_2 0] (by decide)
  exact ⟨by simpa using h.1, by simpa using h.2.1⟩

/-- C7: in multi-user mode with no identified user (`CurrentUser = None`),
any number of `ButtonPressed` events is a complete no-op: the effect trace is
empty — zero API calls, zero sounds — and `CurrentUser` stays `None`. -/
theorem multi_user_buttons_without_user_noop (c : Client)
    (buttons : List Button) (hmode : c.user_mode = UserMode.MultiUser) :
    c.handle_events_from CurrentUser.None (buttons.map Event.ButtonPressed) =
      (CurrentUser.None, []) := by
  induction buttons with
  | nil => simp [Client.handle_events_from]
  | cons b rest ih =>
    simp [List.map_cons, Client.handle_events_from, Client.handle_event_step,
          hmode, Client.handle_multi_user_event, default_current_user, ih]

/-- C7 witness: the sample multi-user client ignores three button presses
from the `None` state. -/
theorem multi_user_buttons_without_user_noop_witness :
    sampleClient.handle_events_from CurrentUser.None
        ([Button.Button1, Button.Button3, Button.Button8].map
          Event.ButtonPressed) =
      (CurrentUser.None, []) :=
  multi_user_buttons_without_user_noop sampleClient
    [Button.Button1, Button.Button3, Button.Button8] rfl

/-- C3: dispatching a button press for an identified user: an unmapped
button makes no API call and plays nothing; a mapped button makes exactly
one `update_status(user_id, whereabouts_name)` call (the trace's only API
call, so no retry); on success the sound played is the one chosen by the
injected random source from the whereabouts name's configured custom sounds
when the name is configured, and the generic status-updated sound otherwise;
on failure the communication-failed sound is played; and in both surrounding
handlers (single-user mode, and multi-user mode with an identified user) the
handling result resets `CurrentUser` to the mode default. -/
theorem identified_button_dispatch (c : Client) (user_id : UserId)
    (button : Button) :
    (c.party_config.buttons_to_whereabouts button = none →
       c.handle_button_press_with_identified_user user_id button = []) ∧
    (∀ whereabouts_name,
       c.party_config.buttons_to_whereabouts button = some whereabouts_name →
       apiCallsOf (c.handle_button_press_with_identified_user user_id button) =
         [Effect.ApiUpdateStatus user_id whereabouts_name] ∧
       (c.api_client.update_status user_id whereabouts_name = Except.ok () →
          playsOf (c.handle_button_press_with_identified_user user_id button) =
            [match c.party_config.whereabouts_sounds whereabouts_name with
             | some sound_names =>
               Sound.WhereaboutsStatusUpdatedCustom
                 (c.choose_random_element sound_names)
             | none => Sound.WhereaboutsStatusUpdated]) ∧
       (∀ er,
          c.api_client.update_status user_id whereabouts_name =
            Except.error er →
          playsOf (c.handle_button_press_with_identified_user user_id button) =
            [Sound.CommunicationFailed])) ∧
    (c.handle_single_user_event (Event.ButtonPressed button) user_id).1 =
      EventHandlingResult.ResetCurrentUser ∧
    (c.handle_multi_user_event (Event.ButtonPressed button)
        (CurrentUser.User user_id)).1 =
      EventHandlingResult.ResetCurrentUser := by
  refine ⟨?_, ?_, ?_, ?_⟩
  · intro h
    simp [Client.handle_button_press_with_identified_user, h]
  · intro whereabouts_name hw
    refine ⟨?_, ?_, ?_⟩
    · cases hr : c.api_client.update_status user_id whereabouts_name <;>
        simp [Client.handle_button_press_with_identified_user, hw, hr,
              apiCallsOf]
    · intro hok
      simp [Client.handle_button_press_with_identified_user, hw, hok, playsOf]
    · intro er herr
      simp [Client.handle_button_press_with_identified_user, hw, herr, playsOf]
  · simp [Client.handle_single_user_event]
  · simp [Client.handle_multi_user_event]

/-- C3 witness: on the sample client, `Button3` is mapped to `"lounge"` with
sole configured sound `"going_to_lounge"`; dispatching it for user `u42`
makes exactly the call `update_status(u42, lounge)` and plays exactly the
configured custom sound. -/
theorem identified_button_dispatch_witness :
    apiCallsOf
        (sampleClient.handle_button_press_with_identified_user "u42"
          Button.Button3) =
      [Effect.ApiUpdateStatus "u42" "lounge"] ∧
    playsOf
        (sampleClient.handle_button_press_with_identified_user "u42"
          Button.Button3) =
      [Sound.WhereaboutsStatusUpdatedCustom "going_to_lounge"] := by
  have h :=
    (identified_button_dispatch sampleClient "u42" Button.Button3).2.1 "lounge"
      (by simp [sampleClient, sampleParty])
  refine ⟨h.1, ?_⟩
  have hp := h.2.1 (by simp [sampleClient, okApi])
  simpa [sampleClient, sampleParty] using hp

/-- C6: in multi-user mode, a tag lookup that succeeds with no match plays
exactly one sound — the unknown-tag sound — and resets `CurrentUser` to
`None`; a tag lookup that fails plays the communication-failed sound and
resets `CurrentUser` to `None`; in both cases the event loop continues with
the remaining events (from the reset state) instead of aborting. -/
theorem unknown_tag_and_lookup_failure_recovery (c : Client) (tag : Tag)
    (current_user : CurrentUser) (rest : List Event)
    (hmode : c.user_mode = UserMode.MultiUser) :
    (c.api_client.get_tag_details tag = Except.ok none →
       c.handle_tag_read tag =
         (EventHandlingResult.ResetCurrentUser,
          [Effect.ApiGetTagDetails tag, Effect.Play Sound.UserTagUnknown]) ∧
       c.handle_events_from current_user (Event.TagRead tag :: rest) =
         ((c.handle_events_from CurrentUser.None rest).1,
          [Effect.ApiGetTagDetails tag, Effect.Play Sound.UserTagUnknown] ++
            (c.handle_events_from CurrentUser.None rest).2)) ∧
    (∀ er, c.api_client.get_tag_details tag = Except.error er →
       c.handle_tag_read tag =
         (EventHandlingResult.ResetCurrentUser,
          [Effect.ApiGetTagDetails tag,
           Effect.Play Sound.CommunicationFailed]) ∧
       c.handle_events_from current_user (Event.TagRead tag :: rest) =
         ((c.handle_events_from CurrentUser.None rest).1,
          [Effect.ApiGetTagDetails tag,
           Effect.Play Sound.CommunicationFailed] ++
            (c.handle_events_from CurrentUser.None rest).2)) := by
  constructor
  · intro h
    have ht : c.handle_tag_read tag =
        (EventHandlingResult.ResetCurrentUser,
         [Effect.ApiGetTagDetails tag, Effect.Play Sound.UserTagUnknown]) := by
      simp [Client.handle_tag_read, h]
    refine ⟨ht, ?_⟩
    simp [Client.handle_events_from, Client.handle_event_step, hmode,
          Client.handle_multi_user_event, ht, default_current_user]
  · intro er h
    have ht : c.handle_tag_read tag =
        (EventHandlingResult.ResetCurrentUser,
         [Effect.ApiGetTagDetails tag,
          Effect.Play Sound.CommunicationFailed]) := by
      simp [Client.handle_tag_read, h]
    refine ⟨ht, ?_⟩
    simp [Client.handle_events_from, Client.handle_event_step, hmode,
          Client.handle_multi_user_event, ht, default_current_user]

/-- C6 witness: on the sample clients (lookup succeeds with no match, and
lookup fails), reading tag `"UNKNOWN"` plays exactly the respective sound and
the loop goes on to process the rest of the events from the `None` state. -/
theorem unknown_tag_and_lookup_failure_recovery_witness :
    sampleClient.handle_events_from (CurrentUser.User "u1")
        [Event.TagRead (Tag.mk "UNKNOWN")] =
      (CurrentUser.None,
       [Effect.ApiGetTagDetails (Tag.mk "UNKNOWN"),
        Effect.Play Sound.UserTagUnknown]) ∧
    sampleErrClient.handle_events_from (CurrentUser.User "u1")
        [Event.TagRead (Tag.mk "UNKNOWN")] =
      (CurrentUser.None,
       [Effect.ApiGetTagDetails (Tag.mk "UNKNOWN"),
        Effect.Play Sound.CommunicationFailed]) := by
  constructor
  · have h :=
      ((unknown_tag_and_lookup_failure_recovery sampleClient
          (Tag.mk "UNKNOWN") (CurrentUser.User "u1") [] rfl).1
        (by simp [sampleClient, okApi])).2
    simpa [Client.handle_events_from] using h
  · have h :=
      ((unknown_tag_and_lookup_failure_recovery sampleErrClient
          (Tag.mk "UNKNOWN") (CurrentUser.User "u1") [] rfl).2 ()
        (by simp [sampleErrClient, errApi])).2
    simpa [Client.handle_events_from] using h

/-- Helper: the mode default current user is never `Admin`. -/
theorem default_current_user_ne_admin (m : UserMode) :
    default_current_user m ≠ CurrentUser.Admin := by
  cases m <;> simp [default_current_user]

/-- Helper: `handle_tag_read` either resets the current user or sets it to a
resolved `User`; it never aborts and never yields `Admin` or `Keep`. -/
theorem handle_tag_read_result_cases (c : Client) (tag : Tag) :
    (c.handle_tag_read tag).1 = EventHandlingResult.ResetCurrentUser ∨
    ∃ id, (c.handle_tag_read tag).1 =
      EventHandlingResult.SetCurrentUser (CurrentUser.User id) := by
  unfold Client.handle_tag_read
  cases h : c.api_client.get_tag_details tag with
  | ok o =>
    cases o with
    | none => simp
    | some details => exact Or.inr ⟨details.user_id, by simp⟩
  | error e => simp

/-- Helper: a sign-off API call never appears in the effects of an
identified-user button dispatch. -/
theorem signoff_not_in_button_press (c : Client) (user_id : UserId)
    (button : Button) :
    Effect.ApiSignOff ∉
      c.handle_button_press_with_identified_user user_id button := by
  unfold Client.handle_button_press_with_identified_user
  cases hb : c.party_config.buttons_to_whereabouts button with
  | none => simp
  | some w => cases hr : c.api_client.update_status user_id w <;> simp [hr]

/-- Helper: a sign-off API call never appears in the effects of a tag read. -/
theorem signoff_not_in_tag_read (c : Client) (tag : Tag) :
    Effect.ApiSignOff ∉ (c.handle_tag_read tag).2 := by
  unfold Client.handle_tag_read
  cases h : c.api_client.get_tag_details tag with
  | ok o =>
    cases o with
    | none => simp
    | some details => cases hd : details.sound_name <;> simp [hd]
  | error e => simp

/-- Helper: for any event other than `ShutdownRequested`, the step of the
event loop neither aborts nor emits a sign-off call, in either mode. -/
theorem step_non_shutdown (c : Client) (current_user : CurrentUser)
    (event : Event) (he : event ≠ Event.ShutdownRequested) :
    (c.handle_event_step event current_user).1 ≠ EventHandlingResult.Abort ∧
    Effect.ApiSignOff ∉ (c.handle_event_step event current_user).2 := by
  unfold Client.handle_event_step
  cases hm : c.user_mode with
  | SingleUser uid =>
    cases event with
    | TagRead tag => simp [Client.handle_single_user_event]
    | ButtonPressed b =>
      exact ⟨by simp [Client.handle_single_user_event],
             by simpa [Client.handle_single_user_event] using
               signoff_not_in_button_press c uid b⟩
    | ShutdownRequested => exact absurd rfl he
  | MultiUser =>
    cases event with
    | TagRead tag =>
      constructor
      · rcases handle_tag_read_result_cases c tag with h | ⟨id, h⟩ <;>
          simp [Client.handle_multi_user_event, h]
      · simpa [Client.handle_multi_user_event] using
          signoff_not_in_tag_read c tag
    | ButtonPressed b =>
      cases current_user with
      | None => simp [Client.handle_multi_user_event]
      | Admin => simp [Client.handle_multi_user_event]
      | User uid =>
        exact ⟨by simp [Client.handle_multi_user_event],
               by simpa [Client.handle_multi_user_event] using
                 signoff_not_in_button_press c uid b⟩
    | ShutdownRequested => exact absurd rfl he

/-- Helper: unfolding one non-aborting iteration of the event loop. -/
theorem handle_events_from_cons (c : Client) (current_user : CurrentUser)
    (event : Event) (rest : List Event)
    (habort : (c.handle_event_step event current_user).1 ≠
      EventHandlingResult.Abort) :
    c.handle_events_from current_user (event :: rest) =
      ((c.handle_events_from
          (nextUser c current_user (c.handle_event_step event current_user).1)
          rest).1,
       (c.handle_event_step event current_user).2 ++
         (c.handle_events_from
           (nextUser c current_user (c.handle_event_step event current_user).1)
           rest).2) := by
  cases hs : (c.handle_event_step event current_user).1 with
  | KeepCurrentUser => simp [Client.handle_events_from, hs, nextUser]
  | SetCurrentUser v => simp [Client.handle_events_from, hs, nextUser]
  | ResetCurrentUser => simp [Client.handle_events_from, hs, nextUser]
  | Abort => exact absurd hs habort

/-- Helper: unfolding one aborting iteration of the event loop — the loop
breaks, keeps the state and discards the remaining events. -/
theorem handle_events_from_cons_abort (c : Client) (current_user : CurrentUser)
    (event : Event) (rest : List Event)
    (habort : (c.handle_event_step event current_user).1 =
      EventHandlingResult.Abort) :
    c.handle_events_from current_user (event :: rest) =
      (current_user, (c.handle_event_step event current_user).2) := by
  simp [Client.handle_events_from, habort]

/-- Helper: a `ShutdownRequested` at the head of the queue makes the step
abort with the sign-off trace, in either mode. -/
theorem handle_events_from_shutdown_head (c : Client)
    (current_user : CurrentUser) (post : List Event) :
    c.handle_events_from current_user (Event.ShutdownRequested :: post) =
      (current_user, c.shutdown) := by
  have habort : (c.handle_event_step Event.ShutdownRequested current_user) =
      (EventHandlingResult.Abort, c.shutdown) := by
    unfold Client.handle_event_step
    cases hm : c.user_mode <;>
      simp [Client.handle_single_user_event, Client.handle_multi_user_event]
  simp [Client.handle_events_from, habort]

/-- Helper: the sign-off trace of `shutdown` contains exactly one sign-off
API call, whichever way the call turns out. -/
theorem shutdown_signoff_count (c : Client) :
    (c.shutdown).count Effect.ApiSignOff = 1 := by
  unfold Client.shutdown Client.sign_off
  cases hs : c.api_client.sign_off <;> simp

/-- Helper: with `Admin` excluded at entry, the state update of a non-abort
step never produces `Admin`. -/
theorem nextUser_ne_admin (c : Client) (current_user : CurrentUser)
    (event : Event) (hu : current_user ≠ CurrentUser.Admin) :
    nextUser c current_user (c.handle_event_step event current_user).1 ≠
      CurrentUser.Admin := by
  unfold Client.handle_event_step
  cases hm : c.user_mode with
  | SingleUser uid =>
    cases event <;>
      simp [Client.handle_single_user_event, nextUser,
            default_current_user_ne_admin, hu]
  | MultiUser =>
    cases event with
    | TagRead tag =>
      rcases handle_tag_read_result_cases c tag with h | ⟨id, h⟩ <;>
        simp [Client.handle_multi_user_event, h, nextUser,
              default_current_user_ne_admin]
    | ButtonPressed b =>
      cases current_user with
      | Admin => exact absurd rfl hu
      | None =>
        simp [Client.handle_multi_user_event, nextUser,
              default_current_user_ne_admin]
      | User uid =>
        simp [Client.handle_multi_user_event, nextUser,
              default_current_user_ne_admin]
    | ShutdownRequested =>
      simp [Client.handle_multi_user_event, nextUser, hu]

/-- Helper: the event loop never reaches the `Admin` state from a
non-`Admin` state. -/
theorem handle_events_from_ne_admin (c : Client) (events : List Event) :
    ∀ current_user : CurrentUser, current_user ≠ CurrentUser.Admin →
    (c.handle_events_from current_user events).1 ≠ CurrentUser.Admin := by
  induction events with
  | nil =>
    intro u hu
    simpa [Client.handle_events_from] using hu
  | cons e rest ih =>
    intro u hu
    by_cases habort : (c.handle_event_step e u).1 = EventHandlingResult.Abort
    · rw [handle_events_from_cons_abort c u e rest habort]
      exact hu
    · rw [handle_events_from_cons c u e rest habort]
      exact ih _ (nextUser_ne_admin c u e hu)

/-- C9: in the session coordinator as written in the tree's client.rs, the
state `CurrentUser::Admin` is unreachable: the loop starts at the mode
default (`User(id)` or `None`, never `Admin`) and every transition keeps the
state, resets it to the default, or sets it to `User(id)` from a resolved
tag, so after any event sequence — and hence, taking prefixes, at every
intermediate point of any sequence — `CurrentUser` is not `Admin`. -/
theorem current_user_never_admin (c : Client) (events : List Event) :
    (c.handle_events events).1 ≠ CurrentUser.Admin :=
  handle_events_from_ne_admin c events (default_current_user c.user_mode)
    (default_current_user_ne_admin c.user_mode)

/-- C4: in both user modes and for every event sequence, the first
`ShutdownRequested` event triggers exactly one sign-off attempt and ends the
loop: whatever follows it — including further `ShutdownRequested` events —
is not processed (the run equals the run with everything after the first
shutdown dropped), and the whole trace contains exactly one sign-off call. -/
theorem shutdown_signs_off_once_and_terminates (c : Client)
    (pre post : List Event) (current_user : CurrentUser)
    (h : Event.ShutdownRequested ∉ pre) :
    c.handle_events_from current_user
        (pre ++ Event.ShutdownRequested :: post) =
      c.handle_events_from current_user (pre ++ [Event.ShutdownRequested]) ∧
    (c.handle_events_from current_user
        (pre ++ Event.ShutdownRequested :: post)).2.count
      Effect.ApiSignOff = 1 := by
  induction pre generalizing current_user with
  | nil =>
    rw [List.nil_append, List.nil_append,
        handle_events_from_shutdown_head, handle_events_from_shutdown_head]
    exact ⟨rfl, shutdown_signoff_count c⟩
  | cons e pre ih =>
    have he : e ≠ Event.ShutdownRequested :=
      fun hh => h (hh ▸ List.mem_cons_self e pre)
    have hpre : Event.ShutdownRequested ∉ pre :=
      fun hh => h (List.mem_cons_of_mem e hh)
    obtain ⟨habort, hsignoff⟩ := step_non_shutdown c current_user e he
    rw [List.cons_append, List.cons_append,
        handle_events_from_cons c current_user e _ habort,
        handle_events_from_cons c current_user e _ habort]
    obtain ⟨ih1, ih2⟩ :=
      ih (nextUser c current_user (c.handle_event_step e current_user).1) hpre
    refine ⟨by rw [ih1], ?_⟩
    simp only [List.count_append, ih2]
    rw [List.count_eq_zero_of_not_mem hsignoff]

/-- C4 witness: the sample client processes a button press, then a shutdown;
the trailing events (a tag read and a second shutdown) are dropped and the
whole trace contains exactly one sign-off call. -/
theorem shutdown_signs_off_once_and_terminates_witness :
    sampleClient.handle_events_from CurrentUser.None
        ([Event.ButtonPressed Button.Button1] ++ Event.ShutdownRequested ::
          [Event.TagRead (Tag.mk "1"), Event.ShutdownRequested]) =
      sampleClient.handle_events_from CurrentUser.None
        ([Event.ButtonPressed Button.Button1] ++ [Event.ShutdownRequested]) ∧
    (sampleClient.handle_events_from CurrentUser.None
        ([Event.ButtonPressed Button.Button1] ++ Event.ShutdownRequested ::
          [Event.TagRead (Tag.mk "1"), Event.ShutdownRequested])).2.count
      Effect.ApiSignOff = 1 :=
  shutdown_signs_off_once_and_terminates sampleClient
    [Event.ButtonPressed Button.Button1]
    [Event.TagRead (Tag.mk "1"), Event.ShutdownRequested]
    CurrentUser.None (by decide)

end Verbleiber

